import Mathlib

/-!
Verification development for the AdvisorMatch repository.

The repository ships two front-end page scripts concatenated in
src/frontend/js/app.js: a semantic-search page (performSearch posting to
/api/search, displayResults, createProfessorCard, createPublicationHTML,
truncateText) and a BM25 page (performSearch posting to /api/bm25/search,
displayResults, truncateText).  Both are embedded here as pure Lean
functions.  JS numbers are modelled as rationals, nullable JS values as
Option, and a thrown TypeError as Except.error.  The ranking engine itself
(retriever, aggregator, score composer) is not part of the sources; where a
claim depends on it, a definition modelled from the specification is used
and marked as such in its doc comment.
-/

/-- Truthiness of a nullable JS string: null/undefined and the empty string
are falsy, every other string is truthy. -/
def jsTruthy : Option String → Bool
  | none => false
  | some s => !s.isEmpty

/-- Template interpolation of a possibly-undefined JS string value:
interpolating undefined prints the literal text undefined. -/
def jsDisplayOpt : Option String → String
  | none => "undefined"
  | some s => s

/-- Left-pad a digit string with zeros to the given width. -/
def padZeros (width : Nat) (s : String) : String :=
  String.mk (List.replicate (width - s.length) '0') ++ s

/-- Model of Number.prototype.toFixed for a non-negative rational: scale by
10^digits, round half up to an integer, and print with a decimal point. -/
def toFixedNonneg (digits : Nat) (x : ℚ) : String :=
  let scaled : Nat := (⌊x * (10 : ℚ) ^ digits + 1 / 2⌋).toNat
  if digits = 0 then toString scaled
  else toString (scaled / 10 ^ digits) ++ "." ++ padZeros digits (toString (scaled % 10 ^ digits))

/-- Model of Number.prototype.toFixed on rationals (sign handled as in JS,
rounding of the underlying double abstracted as round half away from zero). -/
def toFixed (digits : Nat) (x : ℚ) : String :=
  if x < 0 then "-" ++ toFixedNonneg digits (-x) else toFixedNonneg digits x

/-- Interpolation of a raw JS number into a template string; the decimal
printing of the underlying double is abstracted as the canonical rational
rendering. -/
def numDisplay (x : ℚ) : String := toString x

/-- A publication entry of a search response: paper fields read by the two
front-end pages.  year, citations, venue and url are optional. -/
structure Publication where
  title : String
  url : Option String
  year : Option Nat
  citations : Option Nat
  venue : Option String
  similarity : ℚ

/-- A professor result object of a search response (fields per the response
shape consumed by both pages). -/
structure Professor where
  name : String
  department : String
  college : String
  interests : Option String
  image_url : Option String
  url : Option String
  final_score : ℚ
  avg_similarity : ℚ
  recency_weight : ℚ
  activity_bonus : ℚ
  citation_impact : ℚ
  num_matching_papers : Nat
  top_publications : List Publication

/-- A search response body: query echo, total_results, search_time_ms and
the results list (absent results modelled as none, as the code guards
data.results with a truthiness test). -/
structure ResponseData where
  query : String
  total_results : Int
  search_time_ms : ℚ
  results : Option (List Professor)

/-- Semantic-page truncateText on an actual string argument:
text unchanged when its length is at most maxLength, otherwise the first
maxLength characters followed by an ellipsis. -/
def truncateText (text : String) (maxLength : Nat) : String :=
  if text.length ≤ maxLength then text else text.take maxLength ++ "..."

/-- Semantic-page truncateText on a possibly-null argument: reading
text.length on null/undefined throws a TypeError, modelled as Except.error. -/
def truncateTextNullable (text : Option String) (maxLength : Nat) : Except Unit String :=
  match text with
  | none => Except.error ()
  | some t => Except.ok (truncateText t maxLength)

/-- BM25-page truncateText: a falsy argument (null/undefined/empty string)
is returned unchanged, otherwise truncate as on the semantic page. -/
def truncateTextB (text : Option String) (maxLength : Nat) : Option String :=
  match text with
  | none => none
  | some t =>
      if t.isEmpty then some t
      else if t.length ≤ maxLength then some t
      else some (t.take maxLength ++ "...")

/-- Gauge colour of a professor card: red by default, green above 0.5,
amber from 0.3 up to 0.5. -/
def gaugeColor (s : ℚ) : String :=
  if s > 0.5 then "#28a745"
  else if s ≥ 0.3 then "#ffc107"
  else "#dc3545"

/-- Border class of a publication item: red by default, green above 0.5,
amber from 0.3 up to 0.5. -/
def borderClass (s : ℚ) : String :=
  if s > 0.5 then "pub-border-green"
  else if s ≥ 0.3 then "pub-border-amber"
  else "pub-border-red"

/-- Year slot of a publication line: year falsy (null/undefined/0) prints
the neutral text, otherwise the year. -/
def yearDisplay : Option Nat → String
  | none => "N/A"
  | some y => if y = 0 then "N/A" else toString y

/-- Citations slot of a publication line: citations falsy prints 0. -/
def citationsDisplay (c : Option Nat) : String :=
  toString (c.getD 0)

/-- Title slot of a semantic-page publication item: a link when the
publication has a truthy url, the bare title otherwise. -/
def pubTitleHtml (pub : Publication) : String :=
  if jsTruthy pub.url then
    "<a href=\"" ++ pub.url.getD "" ++ "\" target=\"_blank\" class=\"publication-link\">" ++ pub.title ++ "</a>"
  else pub.title

/-- Venue fragment of a semantic-page publication item, omitted when venue
is falsy. -/
def venueSection (venue : Option String) : String :=
  if jsTruthy venue then "<span>•</span><span>" ++ venue.getD "" ++ "</span>" else ""

/-- createPublicationHTML of the semantic page, as the produced HTML
string (layout whitespace collapsed). -/
def createPublicationHTML (pub : Publication) : String :=
  "<div class=\"publication-item " ++ borderClass pub.similarity ++ "\"><div class=\"publication-title\">"
  ++ pubTitleHtml pub
  ++ "</div><div class=\"publication-meta\"><span>" ++ yearDisplay pub.year
  ++ "</span><span>•</span><span>" ++ citationsDisplay pub.citations ++ " citations</span>"
  ++ venueSection pub.venue
  ++ "<span>•</span><span class=\"similarity-score\">Paper Similarity: "
  ++ toFixed 1 (pub.similarity * 100) ++ "%</span></div></div>"

/-- The IEEE-754 double closest to pi, the value of Math.PI, as an exact
rational. -/
def jsPI : ℚ := 884279719003555 / 281474976710656

/-- Gauge radius of the semantic card. -/
def radius : ℚ := 50

/-- Gauge arc length of the semantic card. -/
def circumference : ℚ := jsPI * radius

/-- Gauge dash offset of the semantic card for a given final score. -/
def dashOffset (s : ℚ) : ℚ := circumference * (1 - s)

/-- Image fragment of the semantic professor card, omitted when image_url
is falsy. -/
def imageSection (professor : Professor) : String :=
  if jsTruthy professor.image_url then
    "<img src=\"" ++ professor.image_url.getD "" ++ "\" alt=\"" ++ professor.name ++ "\" class=\"professor-image\">"
  else ""

/-- Research-interests row of the semantic professor card, omitted when
interests is falsy. -/
def interestsSection (professor : Professor) : String :=
  if jsTruthy professor.interests then
    "<div class=\"detail-row\"><span class=\"detail-label\">Research Interests:</span><span class=\"detail-value\">"
    ++ truncateText (professor.interests.getD "") 200 ++ "</span></div>"
  else ""

/-- Profile-link row of the semantic professor card, omitted when url is
falsy. -/
def profileSection (professor : Professor) : String :=
  if jsTruthy professor.url then
    "<div class=\"detail-row\"><span class=\"detail-label\">Profile:</span><span class=\"detail-value\"><a href=\""
    ++ professor.url.getD "" ++ "\" target=\"_blank\">View Faculty Page →</a></span></div>"
  else ""

/-- Publications block of the semantic professor card, omitted when the
list is empty (an array is truthy, so the guard reduces to the length
test). -/
def publicationsSection (professor : Professor) : String :=
  if professor.top_publications.length > 0 then
    "<div class=\"publications-section\"><h4>Top Matching Publications</h4>"
    ++ String.join (professor.top_publications.map createPublicationHTML) ++ "</div>"
  else ""

/-- createProfessorCard of the semantic page: the full card HTML for a
professor at a given 1-based rank (layout whitespace collapsed). -/
def createProfessorCard (professor : Professor) (rank : Nat) : String :=
  "<div class=\"professor-card\"><div class=\"professor-header\"><div class=\"professor-header-content\">"
  ++ imageSection professor
  ++ "<div class=\"professor-info\"><h3>" ++ toString rank ++ ". " ++ professor.name
  ++ "</h3><div class=\"professor-meta\">" ++ professor.department ++ " • " ++ professor.college
  ++ "</div></div></div><div class=\"gauge-container\"><svg viewBox=\"0 0 120 60\" class=\"gauge-svg\">"
  ++ "<path d=\"M 10 60 A 50 50 0 0 1 110 60\" fill=\"none\" stroke=\"#eee\" stroke-width=\"15\" />"
  ++ "<path d=\"M 10 60 A 50 50 0 0 1 110 60\" fill=\"none\" stroke=\"" ++ gaugeColor professor.final_score
  ++ "\" stroke-width=\"15\" stroke-dasharray=\"" ++ numDisplay circumference
  ++ "\" stroke-dashoffset=\"" ++ numDisplay (dashOffset professor.final_score) ++ "\" /></svg>"
  ++ "<div class=\"gauge-text\">" ++ toFixed 1 (professor.final_score * 100) ++ "%</div>"
  ++ "<div class=\"gauge-label\">Match Score</div></div></div><div class=\"professor-details\">"
  ++ interestsSection professor
  ++ "<div class=\"detail-row\"><span class=\"detail-label\">Matching Papers:</span><span class=\"detail-value\">"
  ++ toString professor.num_matching_papers ++ "</span></div>"
  ++ profileSection professor
  ++ "</div><div class=\"score-breakdown\">"
  ++ "<div class=\"score-item\"><div class=\"score-item-label\">Paper Similarity</div><div class=\"score-item-value\">"
  ++ toFixed 1 (professor.avg_similarity * 100) ++ "%</div></div>"
  ++ "<div class=\"score-item\"><div class=\"score-item-label\">Recency</div><div class=\"score-item-value\">"
  ++ toFixed 1 (professor.recency_weight * 100) ++ "%</div></div>"
  ++ "<div class=\"score-item\"><div class=\"score-item-label\">Activity</div><div class=\"score-item-value\">+"
  ++ toFixed 1 (professor.activity_bonus * 100) ++ "%</div></div>"
  ++ "<div class=\"score-item\"><div class=\"score-item-label\">Citations</div><div class=\"score-item-value\">"
  ++ toFixed 1 (professor.citation_impact * 100) ++ "%</div></div>"
  ++ "</div>" ++ publicationsSection professor ++ "</div>"

/-- A BM25-page publication item (layout whitespace collapsed). -/
def bm25PubHtml (pub : Publication) : String :=
  "<div class=\"publication-item\"><div class=\"publication-title\">"
  ++ (if jsTruthy pub.url then
        "<a href=\"" ++ pub.url.getD "" ++ "\" target=\"_blank\" style=\"color: inherit; text-decoration: none; border-bottom: 1px dotted #666;\">"
        ++ pub.title ++ "</a>"
      else pub.title)
  ++ "</div><div class=\"publication-meta\"><span class=\"similarity-score\">BM25: "
  ++ toFixed 2 pub.similarity
  ++ "</span><span>•</span><span>" ++ yearDisplay pub.year
  ++ "</span><span>•</span><span>" ++ citationsDisplay pub.citations ++ " citations</span></div></div>"

/-- A BM25-page professor card (layout whitespace collapsed).  It reads
name, department, college, interests, image_url, num_matching_papers,
final_score and top_publications; it never reads recency_weight,
activity_bonus or citation_impact. -/
def bm25ProfCard (prof : Professor) : String :=
  "<div class=\"professor-card\"><div class=\"professor-header\"><div class=\"professor-header-content\">"
  ++ "<img src=\""
  ++ (if jsTruthy prof.image_url then prof.image_url.getD "" else "https://via.placeholder.com/120")
  ++ "\" alt=\"" ++ prof.name
  ++ "\" class=\"professor-image\" onerror=\"this.src=\x27https://via.placeholder.com/120\x27\">"
  ++ "<div class=\"professor-info\"><h3>" ++ prof.name
  ++ "</h3><div class=\"professor-meta\">" ++ prof.department ++ " • " ++ prof.college
  ++ "</div><div class=\"professor-details\"><div class=\"detail-row\"><span class=\"detail-label\">Research Interests:</span><span class=\"detail-value\">"
  ++ jsDisplayOpt (truncateTextB prof.interests 100)
  ++ "</span></div><div class=\"detail-row\"><span class=\"detail-label\">Matching Papers:</span><span class=\"detail-value\">"
  ++ toString prof.num_matching_papers
  ++ "</span></div></div></div></div><div class=\"gauge-container\"><div style=\"text-align: center;\"><div style=\"font-size: 1.5rem; font-weight: bold; color: #500000;\">"
  ++ toFixed 1 prof.final_score
  ++ "</div><div style=\"font-size: 0.8rem; color: #666;\">Avg BM25</div></div></div></div><div class=\"publications-section\"><h4>Top Matching Publications (Lexical Match)</h4>"
  ++ String.join (prof.top_publications.map bm25PubHtml) ++ "</div>"

/-- DOM state touched by displayResults: the error banner text (none when
hidden), the results-info line, the rendered cards of the results
container, and the visibility of the results section. -/
structure DisplayState where
  errorMessage : Option String
  resultsInfo : String
  container : List String
  resultsVisible : Bool

/-- Results-info line of the semantic page, with its singular/plural
switch on total_results. -/
def resultsInfoText (data : ResponseData) : String :=
  "Found " ++ toString data.total_results ++ " advisor"
  ++ (if data.total_results ≠ 1 then "s" else "")
  ++ " for \"" ++ data.query ++ "\" (" ++ toFixed 0 data.search_time_ms ++ "ms)"

/-- displayResults of the semantic page: a falsy or empty results list
shows the no-advisors error and leaves the rest of the state alone;
otherwise it sets the info line, clears the container, renders one card per
result at rank index+1, and shows the results section. -/
def displayResults (data : ResponseData) (st : DisplayState) : DisplayState :=
  if (data.results.getD []).isEmpty then
    { st with errorMessage := some "No advisors found for your query. Try different keywords." }
  else
    { errorMessage := st.errorMessage
      resultsInfo := resultsInfoText data
      container := (data.results.getD []).enum.map fun ip => createProfessorCard ip.2 (ip.1 + 1)
      resultsVisible := true }

/-- displayResults of the BM25 page: same shape, with its own error text,
info line (no plural switch) and card renderer (no rank argument). -/
def displayResultsBM25 (data : ResponseData) (st : DisplayState) : DisplayState :=
  if (data.results.getD []).isEmpty then
    { st with errorMessage := some "No matches found." }
  else
    { errorMessage := st.errorMessage
      resultsInfo := "Found " ++ toString data.total_results ++ " advisors for \"" ++ data.query
        ++ "\" (" ++ toFixed 0 data.search_time_ms ++ "ms)"
      container := (data.results.getD []).map bm25ProfCard
      resultsVisible := true }

/-- Model of the JS String.prototype.trim builtin: strip whitespace from
both ends. -/
def jsTrim (s : String) : String :=
  String.mk (((s.data.dropWhile Char.isWhitespace).reverse.dropWhile Char.isWhitespace).reverse)

/-- Value of a list of decimal digit characters. -/
def digitsVal (ds : List Char) : Nat :=
  ds.foldl (fun acc c => acc * 10 + (c.toNat - 48)) 0

/-- Decimal-only model of the JS parseInt builtin: skip leading
whitespace, read an optional sign and then leading decimal digits; NaN
(no digits) is none. -/
def jsParseInt (s : String) : Option Int :=
  let t := (jsTrim s).data
  let core : List Char × Int :=
    match t with
    | '-' :: cs => (cs, -1)
    | '+' :: cs => (cs, 1)
    | cs => (cs, 1)
  let ds := core.1.takeWhile Char.isDigit
  if ds.isEmpty then none
  else some (core.2 * (digitsVal ds : Int))

/-- The top_k value of the semantic page: parseInt of the top-k input with
fallback 10 when the parse fails (NaN) or yields the falsy 0. -/
def jsTopK (topKValue : String) : Int :=
  match jsParseInt topKValue with
  | none => 10
  | some n => if n = 0 then 10 else n

/-- The JSON body and endpoint of a search request issued by either page. -/
structure SearchRequest where
  endpoint : String
  query : String
  top_k : Int
  include_publications : Option Bool
deriving DecidableEq

/-- Outcome of the pre-fetch part of performSearch: either the function
returned before issuing any API request (with the error banner it showed,
none when it returned silently), or it issued the given request. -/
inductive SearchAction where
  | rejected (errorShown : Option String)
  | fetched (req : SearchRequest)
deriving DecidableEq

/-- performSearch of the semantic page, up to the point the request is
issued: trims the input, rejects an empty trimmed query with a visible
error banner and no request, otherwise posts query/top_k/
include_publications to /api/search. -/
def performSearch (inputValue : String) (topKValue : String) : SearchAction :=
  let query := jsTrim inputValue
  if query.isEmpty then
    SearchAction.rejected (some "Please enter a research query")
  else
    SearchAction.fetched
      { endpoint := "/api/search"
        query := query
        top_k := jsTopK topKValue
        include_publications := some true }

/-- performSearch of the BM25 page, up to the point the request is issued:
trims the input, returns silently (no error banner, no request) on an
empty trimmed query, otherwise posts query and the constant top_k = 20 to
/api/bm25/search. -/
def performSearchBM25 (inputValue : String) : SearchAction :=
  let query := jsTrim inputValue
  if query.isEmpty then
    SearchAction.rejected none
  else
    SearchAction.fetched
      { endpoint := "/api/bm25/search"
        query := query
        top_k := 20
        include_publications := none }

/-- The request issued by a search action, none when it returned before
the fetch. -/
def requestOf : SearchAction → Option SearchRequest
  | SearchAction.rejected _ => none
  | SearchAction.fetched req => some req

/-- The ranking mode selector of the engine. -/
inductive Mode where
  | semantic
  | lexical

/-- Modelled from the spec: the per-professor score card the ranking
engine produces; the engine itself (retriever, aggregator, composer) is
not among the repository sources. -/
structure ScoreCard where
  avg_similarity : ℚ
  recency_weight : ℚ
  activity_bonus : ℚ
  citation_impact : ℚ
  num_matching_papers : Nat

/-- Modelled from the spec: the Score Composer of section 4.3, absent from
the sources.  Semantic mode combines the weighted sub-scores plus the
activity bonus and clamps the result to the unit interval as a final step;
lexical mode is the average similarity directly, unmodified by the other
fields. -/
def compose (card : ScoreCard) (mode : Mode) : ℚ :=
  match mode with
  | Mode.semantic =>
      min 1 (max 0 (0.6 * card.avg_similarity + 0.2 * card.recency_weight
        + 0.1 * card.citation_impact + card.activity_bonus))
  | Mode.lexical => card.avg_similarity

/-- A concrete professor result used to exercise the renderers. -/
def sampleProfessor : Professor :=
  { name := "Ada Lovelace"
    department := "Computer Science"
    college := "Engineering"
    interests := some "numerical analysis"
    image_url := none
    url := none
    final_score := 7 / 10
    avg_similarity := 7 / 10
    recency_weight := 9 / 10
    activity_bonus := 3 / 50
    citation_impact := 1 / 5
    num_matching_papers := 2
    top_publications := [] }

/-- A concrete publication with every optional field absent. -/
def samplePub : Publication :=
  { title := "On Computable Numbers"
    url := none
    year := none
    citations := none
    venue := none
    similarity := 4 / 5 }

/-- A concrete one-result response. -/
def sampleData : ResponseData :=
  { query := "machine learning"
    total_results := 1
    search_time_ms := 12
    results := some [sampleProfessor] }

/-- A concrete zero-result response. -/
def emptyResp : ResponseData :=
  { query := "quantum"
    total_results := 0
    search_time_ms := 5
    results := some [] }

/-- A fresh display state: nothing shown yet. -/
def cleanState : DisplayState :=
  { errorMessage := none
    resultsInfo := ""
    container := []
    resultsVisible := false }

/-- A display state still holding output of an earlier search. -/
def staleState : DisplayState :=
  { errorMessage := some "old banner"
    resultsInfo := "old info"
    container := ["old card"]
    resultsVisible := true }

theorem truncate_variants_agree_on_strings (t : String) (m : Nat) :
    truncateTextB (some t) m = some (truncateText t m) := by
  by_cases h : t.isEmpty
  · have ht : t = "" := (String.isEmpty_iff t).mp h
    subst ht
    simp [truncateTextB, truncateText]
  · by_cases hl : t.length ≤ m <;> simp [truncateTextB, truncateText, h, hl]

/-- C9 (counterexample): on a null/undefined text the two truncateText
variants diverge: the semantic-page variant throws a TypeError reading
text.length while the BM25-page variant returns the value unchanged, so
they do not compute the same function on null input. -/
theorem truncateText_null_divergence :
    truncateTextNullable (none : Option String) 200 = Except.error ()
    ∧ truncateTextB (none : Option String) 200 = none :=
  ⟨rfl, rfl⟩

/-- C9 (amended): the two truncateText variants agree on every actual
string (the text unchanged when its length is at most maxLength, otherwise
the first maxLength characters plus an ellipsis, including the empty
string); on null/undefined the BM25-page variant returns the value
unchanged while the semantic-page variant throws. -/
theorem truncateText_variants_equivalence (t : String) (m k : Nat) :
    truncateTextB (some t) m = some (truncateText t m)
    ∧ truncateTextNullable (none : Option String) k = Except.error ()
    ∧ truncateTextB (none : Option String) k = none :=
  ⟨truncate_variants_agree_on_strings t m, rfl, rfl⟩

/-- C10: the professor gauge colouring and the publication border
classification apply the same three-band threshold function: green exactly
above 0.5, amber exactly on [0.3, 0.5], red exactly below 0.3; every score
falls in a band, and the two classifiers agree on every input. -/
theorem score_band_classifiers_agree (s : ℚ) :
    (gaugeColor s = "#28a745" ↔ 0.5 < s)
    ∧ (gaugeColor s = "#ffc107" ↔ 0.3 ≤ s ∧ s ≤ 0.5)
    ∧ (gaugeColor s = "#dc3545" ↔ s < 0.3)
    ∧ (gaugeColor s = "#28a745" ∨ gaugeColor s = "#ffc107" ∨ gaugeColor s = "#dc3545")
    ∧ (borderClass s = "pub-border-green" ↔ gaugeColor s = "#28a745")
    ∧ (borderClass s = "pub-border-amber" ↔ gaugeColor s = "#ffc107")
    ∧ (borderClass s = "pub-border-red" ↔ gaugeColor s = "#dc3545") := by
  unfold gaugeColor borderClass
  split_ifs with h1 h2 <;>
    refine ⟨?_, ?_, ?_, ?_, ?_, ?_, ?_⟩ <;>
    (simp_all; try linarith)

/-- C4: in lexical mode the final score equals avg_similarity exactly (the
score composer is modelled from the spec, the engine being absent from the
sources), and the BM25-page result path never reads the recency_weight,
activity_bonus or citation_impact fields: a result object that differs
only in those three fields renders to the identical card. -/
theorem lexical_mode_isolation (card : ScoreCard) (p : Professor) (r a c : ℚ) :
    compose card Mode.lexical = card.avg_similarity
    ∧ bm25ProfCard { p with recency_weight := r, activity_bonus := a, citation_impact := c }
        = bm25ProfCard p :=
  ⟨rfl, rfl⟩

/-- C6: in semantic mode the composed final score (composer modelled from
the spec) lies in [0,1], and consequently the renderer quantities derived
from it — the displayed percentage value and the gauge dash offset
circumference * (1 - final_score) — are non-negative and at most the full
arc. -/
theorem semantic_final_score_bounds (card : ScoreCard) :
    0 ≤ compose card Mode.semantic
    ∧ compose card Mode.semantic ≤ 1
    ∧ 0 ≤ dashOffset (compose card Mode.semantic)
    ∧ dashOffset (compose card Mode.semantic) ≤ circumference
    ∧ 0 ≤ compose card Mode.semantic * 100 := by
  have hC : (0 : ℚ) < circumference := by norm_num [circumference, jsPI, radius]
  have h0 : 0 ≤ compose card Mode.semantic := le_min (by norm_num) (le_max_left _ _)
  have h1 : compose card Mode.semantic ≤ 1 := min_le_left _ _
  refine ⟨h0, h1, ?_, ?_, ?_⟩
  · exact mul_nonneg hC.le (by linarith)
  · calc circumference * (1 - compose card Mode.semantic)
        ≤ circumference * 1 := by
          exact mul_le_mul_of_nonneg_left (by linarith) hC.le
      _ = circumference := mul_one _
  · exact mul_nonneg h0 (by norm_num)

/-- C5: a publication or professor record with missing optional fields
(year, citations, venue, image, url) is processed without failure: the
year slot renders the neutral text, the citations slot renders 0, and the
venue, image and profile sections are omitted, the renderer completing
normally. -/
theorem missing_optional_fields_neutral (pub : Publication) (prof : Professor)
    (hy : pub.year = none) (hc : pub.citations = none) (hv : pub.venue = none)
    (hu : pub.url = none) (hi : prof.image_url = none) (hp : prof.url = none) :
    yearDisplay pub.year = "N/A"
    ∧ citationsDisplay pub.citations = "0"
    ∧ venueSection pub.venue = ""
    ∧ pubTitleHtml pub = pub.title
    ∧ imageSection prof = ""
    ∧ profileSection prof = ""
    ∧ createPublicationHTML pub =
        "<div class=\"publication-item " ++ borderClass pub.similarity ++ "\"><div class=\"publication-title\">"
        ++ pub.title
        ++ "</div><div class=\"publication-meta\"><span>" ++ "N/A"
        ++ "</span><span>•</span><span>" ++ "0" ++ " citations</span>"
        ++ ""
        ++ "<span>•</span><span class=\"similarity-score\">Paper Similarity: "
        ++ toFixed 1 (pub.similarity * 100) ++ "%</span></div></div>" := by
  have h0 : toString (0 : Nat) = "0" := rfl
  obtain ⟨title, url, year, cits, venue, sim⟩ := pub
  obtain ⟨name, dept, college, interests, image, purl, fs, avs, rcw, ab, ci, nmp, pubs⟩ := prof
  subst hy; subst hc; subst hv; subst hu; subst hi; subst hp
  refine ⟨rfl, ?_, rfl, rfl, rfl, rfl, ?_⟩
  · simp only [citationsDisplay, Option.getD_none, h0]
  · simp only [createPublicationHTML, pubTitleHtml, venueSection, yearDisplay,
      citationsDisplay, jsTruthy, Option.getD_none, h0, Bool.false_eq_true, if_false]

/-- C5 (witness): the neutral renderings at a concrete publication and
professor with every optional field absent. -/
theorem missing_optional_fields_neutral_witness :
    samplePub.year = none ∧ samplePub.citations = none ∧ samplePub.venue = none
    ∧ samplePub.url = none ∧ sampleProfessor.image_url = none ∧ sampleProfessor.url = none
    ∧ (yearDisplay samplePub.year = "N/A"
      ∧ citationsDisplay samplePub.citations = "0"
      ∧ venueSection samplePub.venue = ""
      ∧ pubTitleHtml samplePub = samplePub.title
      ∧ imageSection sampleProfessor = ""
      ∧ profileSection sampleProfessor = ""
      ∧ createPublicationHTML samplePub =
          "<div class=\"publication-item " ++ borderClass samplePub.similarity ++ "\"><div class=\"publication-title\">"
          ++ samplePub.title
          ++ "</div><div class=\"publication-meta\"><span>" ++ "N/A"
          ++ "</span><span>•</span><span>" ++ "0" ++ " citations</span>"
          ++ ""
          ++ "<span>•</span><span class=\"similarity-score\">Paper Similarity: "
          ++ toFixed 1 (samplePub.similarity * 100) ++ "%</span></div></div>") :=
  ⟨rfl, rfl, rfl, rfl, rfl, rfl,
    missing_optional_fields_neutral samplePub sampleProfessor rfl rfl rfl rfl rfl rfl⟩

/-- C1 (counterexample): on a whitespace-only query the BM25-page
performSearch issues no API request but also signals nothing: it returns
silently with no error banner, against the claim that both variants signal
an invalid-query condition to the caller. -/
theorem bm25_empty_query_silent :
    performSearchBM25 "   " = SearchAction.rejected none := rfl

/-- C1 (amended): both performSearch variants reject a query whose trimmed
value is empty before retrieval — neither issues an API request; the
semantic-page variant signals the condition with a visible error banner,
while the BM25-page variant returns silently without signalling. -/
theorem empty_query_rejected_before_fetch (input topKValue : String)
    (h : (jsTrim input).isEmpty) :
    performSearch input topKValue = SearchAction.rejected (some "Please enter a research query")
    ∧ performSearchBM25 input = SearchAction.rejected none := by
  unfold performSearch performSearchBM25
  simp [h]

/-- C1 (witness): the rejection at a concrete whitespace-only input. -/
theorem empty_query_rejected_witness :
    (jsTrim "   ").isEmpty = true
    ∧ (performSearch "   " "10" = SearchAction.rejected (some "Please enter a research query")
      ∧ performSearchBM25 "   " = SearchAction.rejected none) :=
  ⟨rfl, empty_query_rejected_before_fetch "   " "10" rfl⟩

/-- C2 (counterexample): with the top-k input reading 50 the semantic-page
performSearch issues a request carrying top_k = 50, a value outside [1,20]
passed through unchanged instead of being clamped to the nearest bound. -/
theorem topk_not_clamped :
    requestOf (performSearch "ml" "50")
      = some { endpoint := "/api/search", query := "ml", top_k := 50, include_publications := some true }
    ∧ ¬ ((50 : Int) ≤ 20) :=
  ⟨rfl, by decide⟩

/-- C2 (amended): the front end never clamps top_k: the semantic-page
request carries parseInt of the top-k input unchanged whenever it parses
to a nonzero integer — even one outside [1,20] — with fallback 10 when the
parse fails or yields 0, and the BM25-page request always carries the
constant 20; no value of the input is rejected as an error. -/
theorem topk_passthrough (input topKValue : String) (n : Int)
    (h : ¬ (jsTrim input).isEmpty) (hn : jsParseInt topKValue = some n) (hnz : ¬ n = 0) :
    requestOf (performSearch input topKValue)
      = some { endpoint := "/api/search", query := jsTrim input, top_k := n,
               include_publications := some true }
    ∧ requestOf (performSearchBM25 input)
      = some { endpoint := "/api/bm25/search", query := jsTrim input, top_k := 20,
               include_publications := none } := by
  unfold performSearch performSearchBM25 requestOf jsTopK
  simp [h, hn, hnz]

/-- C2 (witness): the pass-through at the concrete out-of-range input 50. -/
theorem topk_passthrough_witness :
    (¬ (jsTrim "ml").isEmpty) ∧ jsParseInt "50" = some 50 ∧ (¬ (50 : Int) = 0)
    ∧ (requestOf (performSearch "ml" "50")
        = some { endpoint := "/api/search", query := jsTrim "ml", top_k := 50,
                 include_publications := some true }
      ∧ requestOf (performSearchBM25 "ml")
        = some { endpoint := "/api/bm25/search", query := jsTrim "ml", top_k := 20,
                 include_publications := none }) :=
  ⟨by decide, rfl, by decide, topk_passthrough "ml" "50" 50 (by decide) rfl (by decide)⟩

/-- C3 (counterexample): on a response with an empty results list both
displayResults variants signal an error condition — each shows its
no-results error banner — against the claim that no error is raised or
signalled. -/
theorem empty_results_error_banner_shown :
    (displayResults emptyResp cleanState).errorMessage
      = some "No advisors found for your query. Try different keywords."
    ∧ (displayResultsBM25 emptyResp cleanState).errorMessage = some "No matches found." :=
  ⟨rfl, rfl⟩

/-- C3 (amended): an empty results list never causes a failure: both
displayResults variants complete normally, leave the rendered container,
info line and visibility untouched — but each signals the empty set as an
error condition by showing its no-results banner, rather than treating it
as a valid empty rendering. -/
theorem empty_results_handling (data : ResponseData) (st : DisplayState)
    (h : (data.results.getD []).isEmpty) :
    displayResults data st
      = { st with errorMessage := some "No advisors found for your query. Try different keywords." }
    ∧ displayResultsBM25 data st = { st with errorMessage := some "No matches found." } := by
  unfold displayResults displayResultsBM25
  simp [h]

/-- C3 (witness): the empty-results handling at a concrete zero-result
response. -/
theorem empty_results_handling_witness :
    (emptyResp.results.getD []).isEmpty = true
    ∧ (displayResults emptyResp cleanState
        = { cleanState with
              errorMessage := some "No advisors found for your query. Try different keywords." }
      ∧ displayResultsBM25 emptyResp cleanState
        = { cleanState with errorMessage := some "No matches found." }) :=
  ⟨rfl, empty_results_handling emptyResp cleanState rfl⟩

/-- C7: the result-processing pipeline is deterministic: displayResults
and createProfessorCard are pure functions of their inputs — identical
response data with identical prior display state yield the identical final
display state, and identical professor objects at the same rank yield the
identical card string. -/
theorem display_pipeline_deterministic (d₁ d₂ : ResponseData) (st₁ st₂ : DisplayState)
    (p₁ p₂ : Professor) (rank : Nat) (hd : d₁ = d₂) (hst : st₁ = st₂) (hp : p₁ = p₂) :
    displayResults d₁ st₁ = displayResults d₂ st₂
    ∧ createProfessorCard p₁ rank = createProfessorCard p₂ rank := by
  subst hd; subst hst; subst hp
  exact ⟨rfl, rfl⟩

/-- C7 (witness): determinism at a concrete response and professor. -/
theorem display_pipeline_deterministic_witness :
    sampleData = sampleData ∧ cleanState = cleanState ∧ sampleProfessor = sampleProfessor
    ∧ (displayResults sampleData cleanState = displayResults sampleData cleanState
      ∧ createProfessorCard sampleProfessor 1 = createProfessorCard sampleProfessor 1) :=
  ⟨rfl, rfl, rfl,
    display_pipeline_deterministic sampleData sampleData cleanState cleanState
      sampleProfessor sampleProfessor 1 rfl rfl rfl⟩

/-- C8: on a non-empty results sequence displayResults first clears all
previously rendered results (the final container is independent of the
prior one) and produces exactly one professor card per result object,
preserving order, the card at 0-based index i labelled with rank i+1. -/
theorem displayResults_renders_ranked_cards (data : ResponseData) (st st₂ : DisplayState)
    (i : Nat) (p : Professor)
    (hne : ¬ (data.results.getD []).isEmpty)
    (hp : (data.results.getD []).get? i = some p) :
    (displayResults data st).container.length = (data.results.getD []).length
    ∧ (displayResults data st).container.get? i = some (createProfessorCard p (i + 1))
    ∧ (displayResults data st).container = (displayResults data st₂).container := by
  have hcond : (data.results.getD []).isEmpty = false := by
    simpa using hne
  unfold displayResults
  refine ⟨?_, ?_, ?_⟩
  · simp [hcond, List.enum_length]
  · rw [List.get?_eq_getElem?] at hp
    simp [hcond, List.get?_eq_getElem?, List.getElem?_map, List.getElem?_enum, hp]
  · simp [hcond]

/-- C8 (witness): the rendered container at a concrete one-result
response: one card, at rank 1, independent of the stale container. -/
theorem displayResults_renders_ranked_cards_witness :
    (¬ (sampleData.results.getD []).isEmpty)
    ∧ (sampleData.results.getD []).get? 0 = some sampleProfessor
    ∧ ((displayResults sampleData cleanState).container.length
        = (sampleData.results.getD []).length
      ∧ (displayResults sampleData cleanState).container.get? 0
        = some (createProfessorCard sampleProfessor 1)
      ∧ (displayResults sampleData cleanState).container
        = (displayResults sampleData staleState).container) :=
  ⟨by decide, rfl,
    displayResults_renders_ranked_cards sampleData cleanState staleState 0 sampleProfessor
      (by decide) rfl⟩
